import Mathlib

/-!
Verification of the loan-calculator amortization engine and effective-rate
solver (src/calculator.py) against its specification.

The Python code is embedded shallowly over `ℚ`: Python floats become exact
rationals (the spec's properties are stated "in exact arithmetic" / "to
floating-point tolerance"), Python `Optional[int]` becomes `Option ℤ`,
Python truthiness of `request.payment_number` (falsy for both `None` and
`0`) is modelled by `pnTruthy`, and the endpoint's possible outcomes
(full schedule / single row / HTTP 404) become the sum type `LoanResult`.
-/

set_option maxHeartbeats 1000000

/-- The `LoanType` enumeration of src/calculator.py. -/
inductive LoanType where
  | annuity
  | fixed_amortization
  | fixed_payment
deriving DecidableEq

/-- The `LoanRepaymentRequest` model: all numeric fields exact rationals,
`payment_number` an optional (possibly negative or zero) integer. -/
structure LoanRequest where
  principal : ℚ
  rate : ℚ
  num_payments : ℕ
  loan_type : LoanType
  initial_fee : ℚ
  payment_fee : ℚ
  balloon_amount : ℚ
  payment_number : Option ℤ
deriving DecidableEq

/-- The `PaymentDetail` model: one schedule row. -/
structure PaymentDetail where
  payment_number : ℕ
  principal : ℚ
  interest : ℚ
  fee : ℚ
  total_amount : ℚ
deriving DecidableEq

instance : Inhabited PaymentDetail :=
  ⟨{ payment_number := 0, principal := 0, interest := 0, fee := 0, total_amount := 0 }⟩

/-- `rate / 12 / 100`, the `monthly_interest_rate` computed throughout the source. -/
def monthlyRate (rate : ℚ) : ℚ := rate / 12 / 100

/-- The denominator `1 - (1 + monthly_interest_rate) ** -num_payments` of the
annuity formula (factored out of `calculate_annuity_payment` so its vanishing
at zero rate can be stated). -/
def annuityDenominator (rate : ℚ) (num_payments : ℕ) : ℚ :=
  1 - (1 + monthlyRate rate) ^ (-(num_payments : ℤ))

/-- `calculate_annuity_payment` from the source (no zero-rate guard). -/
def calculate_annuity_payment (principal rate : ℚ) (num_payments : ℕ) : ℚ :=
  (principal * monthlyRate rate) / annuityDenominator rate num_payments

/-- `calculate_fixed_payment` from the source: special-cased to
`principal / num_payments` at zero monthly rate, otherwise the same
expression as `calculate_annuity_payment`. -/
def calculate_fixed_payment (principal rate : ℚ) (num_payments : ℕ) : ℚ :=
  if monthlyRate rate = 0 then principal / (num_payments : ℚ)
  else (principal * monthlyRate rate) / annuityDenominator rate num_payments

/-- `calculate_fixed_amortization_principal_payment` from the source
(takes no rate argument at all). -/
def calculate_fixed_amortization_principal_payment (principal : ℚ) (num_payments : ℕ) : ℚ :=
  principal / (num_payments : ℚ)

/-- The per-policy split of one period's payment into
(principal component before balloon, interest component), computed from the
current remaining balance — the `if request.loan_type == ...` branches of
the `loan_repayments` loop body. -/
def periodSplit (req : LoanRequest) (remaining : ℚ) : ℚ × ℚ :=
  match req.loan_type with
  | LoanType.annuity =>
      let annuity_payment := calculate_annuity_payment req.principal req.rate req.num_payments
      let interest_for_payment := remaining * monthlyRate req.rate
      (annuity_payment - interest_for_payment, interest_for_payment)
  | LoanType.fixed_payment =>
      let fixed_payment := calculate_fixed_payment req.principal req.rate req.num_payments
      let interest_for_payment := remaining * monthlyRate req.rate
      (fixed_payment - interest_for_payment, interest_for_payment)
  | LoanType.fixed_amortization =>
      (req.principal / (req.num_payments : ℚ), remaining * monthlyRate req.rate)

/-- One iteration of the `loan_repayments` loop at period `k` with the given
remaining balance: produces the `PaymentDetail` row and the new balance,
including the final-period balloon add-back (to `principal` and
`total_amount`) and the balance reduction that excludes the balloon. -/
def stepRow (req : LoanRequest) (k : ℕ) (remaining : ℚ) : PaymentDetail × ℚ :=
  let fee_for_payment := req.payment_fee + (if k = 1 then req.initial_fee else 0)
  let split := periodSplit req remaining
  let total0 := split.1 + split.2 + fee_for_payment
  let principal_for_payment :=
    if k = req.num_payments then split.1 + req.balloon_amount else split.1
  let total_payment :=
    if k = req.num_payments then total0 + req.balloon_amount else total0
  let remaining2 :=
    remaining -
      (if k = req.num_payments then principal_for_payment - req.balloon_amount
       else principal_for_payment)
  ({ payment_number := k, principal := principal_for_payment,
     interest := split.2, fee := fee_for_payment, total_amount := total_payment },
   remaining2)

/-- The `loan_repayments` loop without the `payment_number` early return:
running `fuel` further periods from balance `remaining`, the current period
being `num_payments - fuel + 1`.  Returns the produced rows and the final
remaining balance. -/
def runEngine (req : LoanRequest) : ℕ → ℚ → List PaymentDetail × ℚ
  | 0, remaining => ([], remaining)
  | fuel + 1, remaining =>
      let k := req.num_payments - fuel
      let pr := stepRow req k remaining
      let rest := runEngine req fuel pr.2
      (pr.1 :: rest.1, rest.2)

/-- The full schedule the request produces when `payment_number` is unset. -/
def loan_schedule (req : LoanRequest) : List PaymentDetail :=
  (runEngine req req.num_payments req.principal).1

/-- The engine's remaining balance after the final period's reduction. -/
def finalBalance (req : LoanRequest) : ℚ :=
  (runEngine req req.num_payments req.principal).2

/-- Python truthiness of `request.payment_number`: falsy for `None` and `0`. -/
def pnTruthy : Option ℤ → Bool
  | none => false
  | some p => p != 0

/-- Possible outcomes of the `loan_repayments` endpoint: the full schedule,
a single requested row, or the 404 `OutOfRangeError`. -/
inductive LoanResult where
  | full (payments : List PaymentDetail)
  | single (payment : PaymentDetail)
  | outOfRange
deriving DecidableEq

/-- The `loan_repayments` loop with the source's early return
(`if request.payment_number and payment_number == request.payment_number`)
and the post-loop 404 raise (`if request.payment_number`). -/
def loanLoopGo (req : LoanRequest) : ℕ → ℚ → List PaymentDetail → LoanResult
  | 0, _, acc =>
      if pnTruthy req.payment_number then LoanResult.outOfRange else LoanResult.full acc
  | fuel + 1, remaining, acc =>
      let k := req.num_payments - fuel
      let pr := stepRow req k remaining
      if pnTruthy req.payment_number ∧ (k : ℤ) = req.payment_number.getD 0 then
        LoanResult.single pr.1
      else
        loanLoopGo req fuel pr.2 (acc ++ [pr.1])

/-- The `loan_repayments` endpoint. -/
def loan_repayments (req : LoanRequest) : LoanResult :=
  loanLoopGo req req.num_payments req.principal []

/-- Failure modes of the `total_sum` endpoint as the source behaves:
`attributeError` models the crash of `all_payments_response.payments` when
`loan_repayments` returned a bare `PaymentDetail`; `http404` models the
propagated `HTTPException`. -/
inductive TotalError where
  | attributeError
  | http404
deriving DecidableEq

/-- The `total_sum` endpoint: calls `loan_repayments` on the request as
given (the `payment_number` field included) and sums the fields of
`.payments` of the result. -/
def total_sum (req : LoanRequest) : Except TotalError PaymentDetail :=
  match loan_repayments req with
  | LoanResult.full ps =>
      Except.ok
        { payment_number := 0,
          principal := (ps.map PaymentDetail.principal).sum,
          interest := (ps.map PaymentDetail.interest).sum,
          fee := (ps.map PaymentDetail.fee).sum,
          total_amount := (ps.map PaymentDetail.total_amount).sum }
  | LoanResult.single _ => Except.error TotalError.attributeError
  | LoanResult.outOfRange => Except.error TotalError.http404

/-- The `for _ in range(2, num_payments)` loop of the fixed_amortization
branch of `calculate_effective_interest_rate`: each iteration first reduces
the remaining principal, then records `principal + interest + payment_fee`.
Returns the recorded entries and the final remaining principal. -/
def famortFlowsLoop (principal_payment r payment_fee : ℚ) :
    ℕ → ℚ → List ℚ × ℚ
  | 0, remaining => ([], remaining)
  | m + 1, remaining =>
      let remaining2 := remaining - principal_payment
      let interest_payment := remaining2 * r
      let rest := famortFlowsLoop principal_payment r payment_fee m remaining2
      ((principal_payment + interest_payment + payment_fee) :: rest.1, rest.2)

/-- The cash-flow vector built by `calculate_effective_interest_rate`:
`-principal`, then a first entry carrying the initial fee, then
`num_payments - 2` regular entries, then a last entry carrying the balloon. -/
def cash_flows (req : LoanRequest) : List ℚ :=
  match req.loan_type with
  | LoanType.annuity =>
      let annuity_payment := calculate_annuity_payment req.principal req.rate req.num_payments
      (-req.principal) ::
        (annuity_payment + req.initial_fee + req.payment_fee) ::
          (List.replicate (req.num_payments - 2) (annuity_payment + req.payment_fee) ++
            [annuity_payment + req.payment_fee + req.balloon_amount])
  | LoanType.fixed_payment =>
      let fixed_payment := calculate_fixed_payment req.principal req.rate req.num_payments
      (-req.principal) ::
        (fixed_payment + req.initial_fee + req.payment_fee) ::
          (List.replicate (req.num_payments - 2) (fixed_payment + req.payment_fee) ++
            [fixed_payment + req.payment_fee + req.balloon_amount])
  | LoanType.fixed_amortization =>
      let principal_payment :=
        calculate_fixed_amortization_principal_payment req.principal req.num_payments
      let r := monthlyRate req.rate
      let first_interest_payment := req.principal * r
      let loop := famortFlowsLoop principal_payment r req.payment_fee
        (req.num_payments - 2) req.principal
      (-req.principal) ::
        (principal_payment + first_interest_payment + req.initial_fee + req.payment_fee) ::
          (loop.1 ++
            [principal_payment + loop.2 * r + req.payment_fee + req.balloon_amount])

/-- The `ComputationError` of the spec's error taxonomy. -/
inductive ComputationError where
  | computationError
deriving DecidableEq

/-- `calculate_effective_interest_rate`.  The external library call
`npf.irr` is modelled as a parameter; per its documented behaviour it
returns NaN when no real root exists, modelled here as `none`, and IEEE NaN
propagates through the annualization `(1 + monthly_irr) ** 12 - 1` (hence
`Option.map`).  The source contains no `raise`, so every path returns
`Except.ok`. -/
def calculate_effective_interest_rate (irr : List ℚ → Option ℚ)
    (req : LoanRequest) : Except ComputationError (Option ℚ) :=
  let monthly_irr := irr (cash_flows req)
  Except.ok (monthly_irr.map (fun r => (1 + r) ^ (12 : ℕ) - 1))

/-! ### Concrete requests used as counterexamples, failing inputs and witnesses -/

/-- A one-period fixed_amortization request with `payment_number = some 0`:
present but falsy in Python. -/
def reqPnZero : LoanRequest :=
  { principal := 1, rate := 0, num_payments := 1, loan_type := LoanType.fixed_amortization,
    initial_fee := 0, payment_fee := 0, balloon_amount := 0, payment_number := some 0 }

/-- A one-period fixed_amortization request with `payment_number = some 1`. -/
def reqPnOne : LoanRequest :=
  { principal := 1, rate := 0, num_payments := 1, loan_type := LoanType.fixed_amortization,
    initial_fee := 0, payment_fee := 0, balloon_amount := 0, payment_number := some 1 }

/-- A two-period fixed_amortization request with a positive rate. -/
def reqFamortTwo : LoanRequest :=
  { principal := 100, rate := 12, num_payments := 2, loan_type := LoanType.fixed_amortization,
    initial_fee := 0, payment_fee := 0, balloon_amount := 0, payment_number := none }

/-- A one-period fixed_payment request at zero rate. -/
def reqFixedOne : LoanRequest :=
  { principal := 100, rate := 0, num_payments := 1, loan_type := LoanType.fixed_payment,
    initial_fee := 0, payment_fee := 0, balloon_amount := 0, payment_number := none }

/-- A one-period fixed_amortization request with a balloon amount. -/
def reqBalloonOne : LoanRequest :=
  { principal := 1, rate := 0, num_payments := 1, loan_type := LoanType.fixed_amortization,
    initial_fee := 0, payment_fee := 0, balloon_amount := 1, payment_number := none }

/-! ### C3: out-of-range payment_number -/

/-- C3 counterexample: `payment_number = 0` is present and outside
`[1, num_payments]`, yet `loan_repayments` does not fail with
`OutOfRangeError` — Python's `if request.payment_number` is falsy at `0`,
so the full schedule is returned. -/
theorem C3_counterexample :
    reqPnZero.payment_number = some 0 ∧
    loan_repayments reqPnZero ≠ LoanResult.outOfRange := by
  refine ⟨rfl, ?_⟩
  norm_num [loan_repayments, loanLoopGo, stepRow, periodSplit, pnTruthy, reqPnZero, monthlyRate]
  exact fun h => nomatch h

/-! ### C5: total_sum is not independent of payment_number -/

/-- C5 (code bug): `total_sum` does not ignore `payment_number`.  With
`payment_number = 1` set, `loan_repayments` returns a bare `PaymentDetail`
and `total_sum` crashes reading `.payments` on it (an `AttributeError`),
whereas the same request with `payment_number` unset aggregates the full
schedule. -/
theorem C5_code_bug :
    total_sum reqPnOne = Except.error TotalError.attributeError ∧
    total_sum { reqPnOne with payment_number := none } =
      Except.ok { payment_number := 0, principal := 1, interest := 0, fee := 0,
                  total_amount := 1 } := by
  constructor <;>
    norm_num [total_sum, loan_repayments, loanLoopGo, stepRow, periodSplit, pnTruthy,
      reqPnOne, monthlyRate]

/-! ### C6: no ComputationError is ever raised -/

/-- C6 counterexample: when the IRR solve finds no real root (modelled by
the solver returning `none`, i.e. NaN), `calculate_effective_interest_rate`
returns that NaN float, not a `ComputationError`. -/
theorem C6_counterexample :
    calculate_effective_interest_rate (fun _ => none) reqFamortTwo = Except.ok none ∧
    calculate_effective_interest_rate (fun _ => none) reqFamortTwo ≠
      Except.error ComputationError.computationError := by
  exact ⟨rfl, by simp [calculate_effective_interest_rate]⟩

/-- C6 amended: whenever the IRR solve produces no real root (NaN), the
function propagates the NaN through the annualization and returns it as an
ordinary float result; it raises no error of its own. -/
theorem C6_amended (irr : List ℚ → Option ℚ) (req : LoanRequest)
    (h : irr (cash_flows req) = none) :
    calculate_effective_interest_rate irr req = Except.ok none := by
  simp [calculate_effective_interest_rate, h]

/-- Witness for `C6_amended` at a concrete request and a no-root solver. -/
theorem C6_amended_witness :
    calculate_effective_interest_rate (fun _ => none) reqFixedOne = Except.ok none :=
  C6_amended (fun _ => none) reqFixedOne rfl

/-! ### C7: fixed_amortization principal components -/

/-- C7 counterexample: with a nonzero balloon amount the final
fixed_amortization row's principal component is
`principal / num_payments + balloon_amount`, not `principal / num_payments`. -/
theorem C7_counterexample :
    ((loan_schedule reqBalloonOne).getD 0 default).principal ≠
      reqBalloonOne.principal / (reqBalloonOne.num_payments : ℚ) := by
  norm_num [loan_schedule, runEngine, stepRow, periodSplit, reqBalloonOne, monthlyRate,
    List.getD]

/-! ### C2 counterexample: solver cash flows vs schedule totals -/

/-- C2 counterexample: for fixed_amortization the solver's final cash-flow
entry uses a remaining balance that was reduced one time too few, so it
differs from the schedule's final `total_amount` (51 vs 50.5 here); and for
`num_payments = 1` the cash-flow vector has length 3, not
`num_payments + 1 = 2`. -/
theorem C2_counterexample :
    (cash_flows reqFamortTwo).getD 2 0 ≠
      ((loan_schedule reqFamortTwo).getD 1 default).total_amount ∧
    (cash_flows reqFixedOne).length ≠ reqFixedOne.num_payments + 1 := by
  constructor
  · norm_num [cash_flows, famortFlowsLoop, calculate_fixed_amortization_principal_payment,
      loan_schedule, runEngine, stepRow, periodSplit, monthlyRate, reqFamortTwo, List.getD]
  · norm_num [cash_flows, calculate_fixed_payment, monthlyRate, reqFixedOne]

/-! ### Structural lemmas about the engine loop -/

/-- The balance reduction of one period is always the pre-balloon principal
component: on the final period the balloon is first added to the principal
and then excluded again from the reduction. -/
theorem stepRow_snd (req : LoanRequest) (k : ℕ) (rem : ℚ) :
    (stepRow req k rem).2 = rem - (periodSplit req rem).1 := by
  by_cases h : k = req.num_payments <;> simp [stepRow, h]

/-- `stepRow` does not read the request's `payment_number` field. -/
theorem stepRow_pn (req : LoanRequest) (pn : Option ℤ) (k : ℕ) (rem : ℚ) :
    stepRow { req with payment_number := pn } k rem = stepRow req k rem := rfl

/-- `runEngine` does not read the request's `payment_number` field. -/
theorem runEngine_pn (req : LoanRequest) (pn : Option ℤ) :
    ∀ (fuel : ℕ) (rem : ℚ),
      runEngine { req with payment_number := pn } fuel rem = runEngine req fuel rem := by
  intro fuel
  induction fuel with
  | zero => intro rem; rfl
  | succ fuel ih =>
      intro rem
      simp only [runEngine, stepRow_pn, ih]

/-- With a non-truthy `payment_number` (unset or `0`) the loop never takes
the early return nor the 404 raise: it returns the accumulated rows followed
by the rows the engine produces. -/
theorem loanLoopGo_full (req : LoanRequest) (h : pnTruthy req.payment_number = false) :
    ∀ (fuel : ℕ) (rem : ℚ) (acc : List PaymentDetail),
      loanLoopGo req fuel rem acc = LoanResult.full (acc ++ (runEngine req fuel rem).1) := by
  intro fuel
  induction fuel with
  | zero => intro rem acc; simp [loanLoopGo, runEngine, h]
  | succ fuel ih =>
      intro rem acc
      simp only [loanLoopGo, runEngine]
      rw [if_neg (by simp [h]), ih]
      simp

/-- With `payment_number` unset, `loan_repayments` returns the full schedule. -/
theorem loan_repayments_none (req : LoanRequest) (h : req.payment_number = none) :
    loan_repayments req = LoanResult.full (loan_schedule req) := by
  have hf : pnTruthy req.payment_number = false := by simp [h, pnTruthy]
  simp only [loan_repayments, loan_schedule, loanLoopGo_full req hf, List.nil_append]

/-- With a truthy `payment_number` that no loop period equals, the loop
finishes and raises the 404 `OutOfRangeError`. -/
theorem loanLoopGo_outOfRange (req : LoanRequest) (p : ℤ)
    (hpn : req.payment_number = some p) (hp : p ≠ 0)
    (hout : p < 1 ∨ (req.num_payments : ℤ) < p) :
    ∀ fuel : ℕ, fuel ≤ req.num_payments → ∀ (rem : ℚ) (acc : List PaymentDetail),
      loanLoopGo req fuel rem acc = LoanResult.outOfRange := by
  intro fuel
  induction fuel with
  | zero => intro _ rem acc; simp [loanLoopGo, pnTruthy, hpn, hp]
  | succ fuel ih =>
      intro hle rem acc
      simp only [loanLoopGo]
      rw [if_neg, ih (by omega)]
      rintro ⟨-, hceq⟩
      rw [hpn] at hceq
      simp only [Option.getD_some] at hceq
      omega

/-! ### C3: out-of-range payment_number, amended -/

/-- C3 amended: a present, nonzero `payment_number` outside
`[1, num_payments]` makes `loan_repayments` fail with `OutOfRangeError`
after the full loop; a present `payment_number = 0` is falsy in Python and
is treated as unset instead. -/
theorem C3_amended_outOfRange (req : LoanRequest) (p : ℤ)
    (hpn : req.payment_number = some p) (hp : p ≠ 0)
    (hout : p < 1 ∨ (req.num_payments : ℤ) < p) :
    loan_repayments req = LoanResult.outOfRange := by
  simp only [loan_repayments]
  exact loanLoopGo_outOfRange req p hpn hp hout req.num_payments le_rfl req.principal []

/-- A one-period request asking for payment number 5. -/
def reqPnFive : LoanRequest :=
  { principal := 1, rate := 0, num_payments := 1, loan_type := LoanType.fixed_amortization,
    initial_fee := 0, payment_fee := 0, balloon_amount := 0, payment_number := some 5 }

/-- Witness for `C3_amended_outOfRange` at a concrete out-of-range request. -/
theorem C3_amended_witness : loan_repayments reqPnFive = LoanResult.outOfRange :=
  C3_amended_outOfRange reqPnFive 5 rfl (by norm_num) (Or.inr (by norm_num [reqPnFive]))

/-- With a truthy `payment_number` equal to a period still ahead of the
loop, the loop short-circuits and returns exactly the row the engine
produces at that period. -/
theorem loanLoopGo_single (req : LoanRequest) (k0 : ℕ)
    (hpn : req.payment_number = some (k0 : ℤ)) (hk : 1 ≤ k0)
    (hkn : k0 ≤ req.num_payments) :
    ∀ fuel : ℕ, fuel ≤ req.num_payments → req.num_payments - fuel < k0 →
      ∀ (rem : ℚ) (acc : List PaymentDetail),
        loanLoopGo req fuel rem acc =
          LoanResult.single
            (((runEngine req fuel rem).1).getD
              (k0 - (req.num_payments - fuel) - 1) default) := by
  intro fuel
  induction fuel with
  | zero => intro h1 h2 rem acc; exact absurd h2 (by omega)
  | succ fuel ih =>
      intro hle hlt rem acc
      by_cases hk0 : req.num_payments - fuel = k0
      · simp only [loanLoopGo, runEngine]
        rw [if_pos]
        · have hidx : k0 - (req.num_payments - (fuel + 1)) - 1 = 0 := by omega
          rw [hidx]
          simp
        · refine ⟨?_, ?_⟩
          · simp only [pnTruthy, hpn]
            simp
            omega
          · rw [hpn]
            simp only [Option.getD_some]
            exact_mod_cast congrArg (Nat.cast : ℕ → ℤ) hk0
      · simp only [loanLoopGo, runEngine]
        rw [if_neg, ih (by omega) (by omega)]
        · have hidx : k0 - (req.num_payments - (fuel + 1)) - 1
              = (k0 - (req.num_payments - fuel) - 1) + 1 := by omega
          rw [hidx]
          simp
        · rintro ⟨-, hceq⟩
          rw [hpn] at hceq
          simp only [Option.getD_some, Nat.cast_inj] at hceq
          exact hk0 hceq

/-! ### C4: a valid single payment_number returns the k-th schedule row -/

/-- C4: for a valid requested payment number `k`, `loan_repayments` returns
the single `PaymentDetail` that is the `k`-th row (1-indexed) of the full
schedule the same request produces with `payment_number` unset. -/
theorem C4_single_matches_schedule (req : LoanRequest) (k : ℕ)
    (hk : 1 ≤ k) (hkn : k ≤ req.num_payments)
    (hpn : req.payment_number = some (k : ℤ)) :
    loan_repayments req =
      LoanResult.single
        ((loan_schedule { req with payment_number := none }).getD (k - 1) default) := by
  have h := loanLoopGo_single req k hpn hk hkn req.num_payments le_rfl (by omega)
    req.principal []
  simp only [loan_repayments]
  rw [h]
  have hidx : k - (req.num_payments - req.num_payments) - 1 = k - 1 := by omega
  rw [hidx]
  congr 1
  simp only [loan_schedule, runEngine_pn]

/-- Witness for `C4_single_matches_schedule` at a concrete request. -/
theorem C4_witness :
    loan_repayments reqPnOne =
      LoanResult.single
        ((loan_schedule { reqPnOne with payment_number := none }).getD 0 default) :=
  C4_single_matches_schedule reqPnOne 1 le_rfl (by norm_num [reqPnOne]) rfl

/-! ### C10: total_sum aggregates the full schedule -/

/-- C10: with `payment_number` unset, `total_sum` returns a `PaymentDetail`
with the sentinel `payment_number = 0` whose four amount fields are the
fieldwise sums over the full schedule. -/
theorem C10_total_sum_aggregates (req : LoanRequest) (h : req.payment_number = none) :
    total_sum req =
      Except.ok
        { payment_number := 0,
          principal := ((loan_schedule req).map PaymentDetail.principal).sum,
          interest := ((loan_schedule req).map PaymentDetail.interest).sum,
          fee := ((loan_schedule req).map PaymentDetail.fee).sum,
          total_amount := ((loan_schedule req).map PaymentDetail.total_amount).sum } := by
  simp only [total_sum, loan_repayments_none req h]

/-- Witness for `C10_total_sum_aggregates` at a concrete request. -/
theorem C10_witness :
    total_sum reqFamortTwo =
      Except.ok
        { payment_number := 0,
          principal := ((loan_schedule reqFamortTwo).map PaymentDetail.principal).sum,
          interest := ((loan_schedule reqFamortTwo).map PaymentDetail.interest).sum,
          fee := ((loan_schedule reqFamortTwo).map PaymentDetail.fee).sum,
          total_amount := ((loan_schedule reqFamortTwo).map PaymentDetail.total_amount).sum } :=
  C10_total_sum_aggregates reqFamortTwo rfl

/-! ### C9: fixed_payment is a numeric alias of annuity for positive rates -/

/-- At nonzero monthly rate `calculate_fixed_payment` skips its guard and
computes the very expression of `calculate_annuity_payment`. -/
theorem calculate_fixed_payment_eq (P rate : ℚ) (n : ℕ) (h : monthlyRate rate ≠ 0) :
    calculate_fixed_payment P rate n = calculate_annuity_payment P rate n := by
  simp [calculate_fixed_payment, calculate_annuity_payment, h]

/-- At nonzero monthly rate one loop iteration is identical under the
annuity and fixed_payment policies. -/
theorem stepRow_annuity_fixed (req : LoanRequest) (h : monthlyRate req.rate ≠ 0)
    (k : ℕ) (rem : ℚ) :
    stepRow { req with loan_type := LoanType.annuity } k rem
      = stepRow { req with loan_type := LoanType.fixed_payment } k rem := by
  simp [stepRow, periodSplit, calculate_fixed_payment_eq req.principal req.rate
    req.num_payments h]

/-- At nonzero monthly rate the whole engine run is identical under the
annuity and fixed_payment policies. -/
theorem runEngine_annuity_fixed (req : LoanRequest) (h : monthlyRate req.rate ≠ 0) :
    ∀ (fuel : ℕ) (rem : ℚ),
      runEngine { req with loan_type := LoanType.annuity } fuel rem
        = runEngine { req with loan_type := LoanType.fixed_payment } fuel rem := by
  intro fuel
  induction fuel with
  | zero => intro rem; rfl
  | succ fuel ih =>
      intro rem
      simp only [runEngine, stepRow_annuity_fixed req h, ih]

/-- At nonzero monthly rate the endpoint loop is identical under the
annuity and fixed_payment policies. -/
theorem loanLoopGo_annuity_fixed (req : LoanRequest) (h : monthlyRate req.rate ≠ 0) :
    ∀ (fuel : ℕ) (rem : ℚ) (acc : List PaymentDetail),
      loanLoopGo { req with loan_type := LoanType.annuity } fuel rem acc
        = loanLoopGo { req with loan_type := LoanType.fixed_payment } fuel rem acc := by
  intro fuel
  induction fuel with
  | zero => intro rem acc; rfl
  | succ fuel ih =>
      intro rem acc
      simp only [loanLoopGo, stepRow_annuity_fixed req h, ih]

/-- C9: with a positive rate, the fixed_payment policy produces exactly the
same `loan_repayments` outcome and the same full schedule, row for row and
field for field, as the annuity policy. -/
theorem C9_fixed_payment_alias (req : LoanRequest) (hr : 0 < req.rate) :
    loan_repayments { req with loan_type := LoanType.annuity }
      = loan_repayments { req with loan_type := LoanType.fixed_payment }
    ∧ loan_schedule { req with loan_type := LoanType.annuity }
      = loan_schedule { req with loan_type := LoanType.fixed_payment } := by
  have h : monthlyRate req.rate ≠ 0 := by
    have : 0 < monthlyRate req.rate := by
      simp only [monthlyRate]
      positivity
    exact ne_of_gt this
  constructor
  · simp only [loan_repayments]
    exact loanLoopGo_annuity_fixed req h req.num_payments req.principal []
  · simp only [loan_schedule]
    rw [runEngine_annuity_fixed req h]

/-- A one-period annuity request with a positive rate. -/
def reqAnnOne : LoanRequest :=
  { principal := 100, rate := 12, num_payments := 1, loan_type := LoanType.annuity,
    initial_fee := 0, payment_fee := 0, balloon_amount := 0, payment_number := none }

/-- Witness for `C9_fixed_payment_alias` at a concrete request. -/
theorem C9_witness :
    loan_repayments { reqAnnOne with loan_type := LoanType.annuity }
      = loan_repayments { reqAnnOne with loan_type := LoanType.fixed_payment }
    ∧ loan_schedule { reqAnnOne with loan_type := LoanType.annuity }
      = loan_schedule { reqAnnOne with loan_type := LoanType.fixed_payment } :=
  C9_fixed_payment_alias reqAnnOne (by norm_num [reqAnnOne])

/-! ### C8: zero-rate guards of the three payment formulas -/

/-- C8: the annuity formula's denominator vanishes at zero rate (the
division-by-zero branch is reachable) while it is nonzero for every
positive rate; `calculate_fixed_payment` is special-cased at zero rate to
`principal / num_payments`; and the fixed_amortization principal component
does not depend on the rate at all. -/
theorem C8_zero_rate_guards (rate : ℚ) (n : ℕ) (hr : 0 < rate) (hn : 1 ≤ n) :
    annuityDenominator 0 n = 0
    ∧ annuityDenominator rate n ≠ 0
    ∧ (∀ P : ℚ, calculate_fixed_payment P 0 n = P / (n : ℚ))
    ∧ (∀ (req : LoanRequest) (rate2 rem : ℚ),
        req.loan_type = LoanType.fixed_amortization →
          (periodSplit { req with rate := rate2 } rem).1 = (periodSplit req rem).1) := by
  refine ⟨?_, ?_, ?_, ?_⟩
  · norm_num [annuityDenominator, monthlyRate]
  · have hr' : 0 < monthlyRate rate := by
      simp only [monthlyRate]
      positivity
    have h1 : (1 : ℚ) < 1 + monthlyRate rate := by linarith
    have h2 : (1 : ℚ) < (1 + monthlyRate rate) ^ n := one_lt_pow₀ h1 (by omega)
    have h3 : ((1 + monthlyRate rate) ^ n)⁻¹ < 1 := inv_lt_one_of_one_lt₀ h2
    simp only [annuityDenominator, zpow_neg, zpow_natCast]
    intro hcontra
    have : ((1 + monthlyRate rate) ^ n)⁻¹ = 1 := by linarith
    linarith
  · intro P
    norm_num [calculate_fixed_payment, monthlyRate]
  · intro req rate2 rem hlt
    simp [periodSplit, hlt]

/-- Witness for `C8_zero_rate_guards` at concrete inputs. -/
theorem C8_witness :
    annuityDenominator 0 12 = 0
    ∧ annuityDenominator 1 12 ≠ 0
    ∧ calculate_fixed_payment 1200 0 12 = 1200 / ((12 : ℕ) : ℚ)
    ∧ (periodSplit { reqFamortTwo with rate := 5 } 77).1 = (periodSplit reqFamortTwo 77).1 :=
  ⟨(C8_zero_rate_guards 1 12 (by norm_num) (by norm_num)).1,
   (C8_zero_rate_guards 1 12 (by norm_num) (by norm_num)).2.1,
   (C8_zero_rate_guards 1 12 (by norm_num) (by norm_num)).2.2.1 1200,
   (C8_zero_rate_guards 1 12 (by norm_num) (by norm_num)).2.2.2 reqFamortTwo 5 77 rfl⟩

/-! ### C1: the balance reaches exactly 0 and pre-balloon principal sums to P -/

/-- The pre-balloon principal component of each produced row. -/
theorem stepRow_fst_principal (req : LoanRequest) (k : ℕ) (rem : ℚ) :
    (stepRow req k rem).1.principal
      = (periodSplit req rem).1
        + (if k = req.num_payments then req.balloon_amount else 0) := by
  by_cases h : k = req.num_payments <;> simp [stepRow, h]

/-- Closed form of the remaining balance under a level payment `A`:
an affine recurrence `rem ↦ rem * (1 + r) - A` solved around its fixed
point `A / r`. -/
theorem runEngine_snd_level (req : LoanRequest) (A : ℚ)
    (hA : ∀ rem : ℚ, (periodSplit req rem).1 = A - rem * monthlyRate req.rate)
    (hr : monthlyRate req.rate ≠ 0) :
    ∀ (fuel : ℕ) (rem : ℚ),
      (runEngine req fuel rem).2 =
        (rem - A / monthlyRate req.rate) * (1 + monthlyRate req.rate) ^ fuel
          + A / monthlyRate req.rate := by
  intro fuel
  induction fuel with
  | zero =>
      intro rem
      simp only [runEngine, pow_zero]
      ring
  | succ fuel ih =>
      intro rem
      simp only [runEngine]
      rw [stepRow_snd, hA, ih]
      field_simp
      ring
  
/-- Closed form of the remaining balance under fixed_amortization: each of
`fuel` periods reduces it by `principal / num_payments`. -/
theorem runEngine_snd_famort (req : LoanRequest)
    (hlt : req.loan_type = LoanType.fixed_amortization) :
    ∀ (fuel : ℕ) (rem : ℚ),
      (runEngine req fuel rem).2
        = rem - fuel * (req.principal / (req.num_payments : ℚ)) := by
  intro fuel
  induction fuel with
  | zero => intro rem; simp [runEngine]
  | succ fuel ih =>
      intro rem
      simp only [runEngine]
      rw [stepRow_snd, ih]
      have hs : (periodSplit req rem).1 = req.principal / (req.num_payments : ℚ) := by
        simp [periodSplit, hlt]
      rw [hs]
      push_cast
      ring

/-- Over a run covering the final period, the sum of the rows' principal
components equals the total balance reduction plus the balloon add-back. -/
theorem runEngine_sum_principal (req : LoanRequest) :
    ∀ fuel : ℕ, 1 ≤ fuel → fuel ≤ req.num_payments → ∀ rem : ℚ,
      (((runEngine req fuel rem).1).map PaymentDetail.principal).sum
        = rem - (runEngine req fuel rem).2 + req.balloon_amount := by
  intro fuel
  induction fuel with
  | zero => intro h; exact absurd h (by omega)
  | succ fuel ih =>
      intro h1 h2 rem
      by_cases hf : fuel = 0
      · subst hf
        simp only [runEngine, List.map_cons, List.map_nil, List.sum_cons, List.sum_nil]
        rw [stepRow_fst_principal, stepRow_snd]
        simp only [Nat.sub_zero, if_pos rfl]
        simp
      · simp only [runEngine, List.map_cons, List.sum_cons]
        rw [stepRow_fst_principal, if_neg (by omega), stepRow_snd,
          ih (by omega) (by omega)]
        ring

/-- The annuity payment `P * r / (1 - (1 + r) ^ -n)` drives the level-payment
balance recurrence to exactly zero after `n` periods. -/
theorem annuity_payment_closes (P r : ℚ) (n : ℕ) (hr : 0 < r) (hn : 1 ≤ n) :
    (P - P * r / (1 - (1 + r) ^ (-(n : ℤ))) / r) * (1 + r) ^ n
        + P * r / (1 - (1 + r) ^ (-(n : ℤ))) / r = 0 := by
  have h1 : (1 : ℚ) < 1 + r := by linarith
  have h2 : (1 : ℚ) < (1 + r) ^ n := one_lt_pow₀ h1 (by omega)
  have h0 : (1 + r) ^ n ≠ 0 := by positivity
  have hy1 : (1 + r) ^ n - 1 ≠ 0 := by
    intro hc
    have h : (1 + r) ^ n = 1 := by linarith
    linarith
  rw [zpow_neg, zpow_natCast]
  have hDval : 1 - ((1 + r) ^ n)⁻¹ = ((1 + r) ^ n - 1) / (1 + r) ^ n := by
    field_simp
  rw [hDval]
  have key : P * r / (((1 + r) ^ n - 1) / (1 + r) ^ n) / r
      = P * (1 + r) ^ n / ((1 + r) ^ n - 1) := by
    rw [div_div_eq_mul_div, div_div]
    rw [eq_div_iff hy1]
    field_simp
    ring
  rw [key]
  field_simp
  ring

/-- C1: for annuity and fixed_payment with positive rate, and for
fixed_amortization with any nonnegative rate, the remaining balance reaches
exactly 0 after the final period's reduction (which excludes the balloon),
and the schedule's principal components sum to exactly the principal plus
the final balloon add-back — i.e. the pre-balloon principal components sum
to the principal. -/
theorem C1_balance_closes (req : LoanRequest) (hn : 1 ≤ req.num_payments)
    (hpol : ((req.loan_type = LoanType.annuity ∨ req.loan_type = LoanType.fixed_payment)
              ∧ 0 < req.rate)
            ∨ (req.loan_type = LoanType.fixed_amortization ∧ 0 ≤ req.rate)) :
    finalBalance req = 0
    ∧ ((loan_schedule req).map PaymentDetail.principal).sum
        = req.principal + req.balloon_amount := by
  have hbal : finalBalance req = 0 := by
    rcases hpol with ⟨hlt, hr⟩ | ⟨hlt, hr⟩
    · have hr' : 0 < monthlyRate req.rate := by
        simp only [monthlyRate]
        positivity
      have hrne : monthlyRate req.rate ≠ 0 := ne_of_gt hr'
      rcases hlt with hlt | hlt
      · have hA : ∀ rem : ℚ, (periodSplit req rem).1
            = calculate_annuity_payment req.principal req.rate req.num_payments
              - rem * monthlyRate req.rate := by
          intro rem
          simp [periodSplit, hlt]
        have hclosed := runEngine_snd_level req _ hA hrne req.num_payments req.principal
        rw [finalBalance, hclosed]
        simp only [calculate_annuity_payment, annuityDenominator]
        exact annuity_payment_closes req.principal (monthlyRate req.rate)
          req.num_payments hr' hn
      · have hA : ∀ rem : ℚ, (periodSplit req rem).1
            = calculate_fixed_payment req.principal req.rate req.num_payments
              - rem * monthlyRate req.rate := by
          intro rem
          simp [periodSplit, hlt]
        have hclosed := runEngine_snd_level req _ hA hrne req.num_payments req.principal
        rw [finalBalance, hclosed]
        rw [calculate_fixed_payment_eq req.principal req.rate req.num_payments hrne]
        simp only [calculate_annuity_payment, annuityDenominator]
        exact annuity_payment_closes req.principal (monthlyRate req.rate)
          req.num_payments hr' hn
    · rw [finalBalance, runEngine_snd_famort req hlt req.num_payments req.principal]
      have hcast : (req.num_payments : ℚ) ≠ 0 := Nat.cast_ne_zero.mpr (by omega)
      field_simp
  refine ⟨hbal, ?_⟩
  simp only [loan_schedule]
  rw [runEngine_sum_principal req req.num_payments hn le_rfl req.principal]
  simp only [finalBalance] at hbal
  rw [hbal]
  ring

/-- Witness for `C1_balance_closes` at a concrete one-period annuity request. -/
theorem C1_witness :
    finalBalance reqAnnOne = 0
    ∧ ((loan_schedule reqAnnOne).map PaymentDetail.principal).sum
        = reqAnnOne.principal + reqAnnOne.balloon_amount :=
  C1_balance_closes reqAnnOne (by norm_num [reqAnnOne])
    (Or.inl ⟨Or.inl rfl, by norm_num [reqAnnOne]⟩)

/-! ### C2 and C7: row-indexed contents of the schedule and cash-flow vector -/

/-- The `total_amount` of each produced row. -/
theorem stepRow_fst_total (req : LoanRequest) (k : ℕ) (rem : ℚ) :
    (stepRow req k rem).1.total_amount
      = (periodSplit req rem).1 + (periodSplit req rem).2
        + (req.payment_fee + if k = 1 then req.initial_fee else 0)
        + (if k = req.num_payments then req.balloon_amount else 0) := by
  by_cases h : k = req.num_payments <;> simp [stepRow, h]

/-- Indexed form of the rows' `total_amount` when the policy's period
payment (principal plus interest) is a level amount `A`. -/
theorem runEngine_getD_total (req : LoanRequest) (A : ℚ)
    (hA : ∀ rem : ℚ, (periodSplit req rem).1 + (periodSplit req rem).2 = A) :
    ∀ fuel : ℕ, fuel ≤ req.num_payments → ∀ (rem : ℚ) (idx : ℕ), idx < fuel →
      (((runEngine req fuel rem).1).getD idx default).total_amount
        = A + (req.payment_fee
            + if req.num_payments - fuel + 1 + idx = 1 then req.initial_fee else 0)
          + (if req.num_payments - fuel + 1 + idx = req.num_payments
             then req.balloon_amount else 0) := by
  intro fuel
  induction fuel with
  | zero => intro _ rem idx h; exact absurd h (by omega)
  | succ fuel ih =>
      intro hle rem idx hidx
      cases idx with
      | zero =>
          simp only [runEngine, List.getD_cons_zero]
          rw [stepRow_fst_total, hA]
          have e1 : req.num_payments - (fuel + 1) + 1 + 0 = req.num_payments - fuel := by
            omega
          rw [e1]
      | succ idx =>
          simp only [runEngine, List.getD_cons_succ]
          rw [ih (by omega) _ idx (by omega)]
          have e1 : req.num_payments - fuel + 1 + idx
              = req.num_payments - (fuel + 1) + 1 + (idx + 1) := by omega
          rw [e1]

/-- Indexed form of the rows' `principal` when the policy's pre-balloon
principal component is a constant `P0`. -/
theorem runEngine_getD_principal (req : LoanRequest) (P0 : ℚ)
    (hP : ∀ rem : ℚ, (periodSplit req rem).1 = P0) :
    ∀ fuel : ℕ, fuel ≤ req.num_payments → ∀ (rem : ℚ) (idx : ℕ), idx < fuel →
      (((runEngine req fuel rem).1).getD idx default).principal
        = P0 + (if req.num_payments - fuel + 1 + idx = req.num_payments
                then req.balloon_amount else 0) := by
  intro fuel
  induction fuel with
  | zero => intro _ rem idx h; exact absurd h (by omega)
  | succ fuel ih =>
      intro hle rem idx hidx
      cases idx with
      | zero =>
          simp only [runEngine, List.getD_cons_zero]
          rw [stepRow_fst_principal, hP]
          have e1 : req.num_payments - (fuel + 1) + 1 + 0 = req.num_payments - fuel := by
            omega
          rw [e1]
      | succ idx =>
          simp only [runEngine, List.getD_cons_succ]
          rw [ih (by omega) _ idx (by omega)]
          have e1 : req.num_payments - fuel + 1 + idx
              = req.num_payments - (fuel + 1) + 1 + (idx + 1) := by omega
          rw [e1]

/-- Indexed access into `replicate m c ++ [last]`. -/
theorem getD_replicate_append (c last : ℚ) :
    ∀ (m j : ℕ), (List.replicate m c ++ [last]).getD j 0
      = if j < m then c else if j = m then last else 0 := by
  intro m
  induction m with
  | zero =>
      intro j
      cases j with
      | zero => simp
      | succ j => simp
  | succ m ih =>
      intro j
      cases j with
      | zero => simp [List.replicate_succ]
      | succ j =>
          simp only [List.replicate_succ, List.cons_append, List.getD_cons_succ, ih]
          by_cases h : j < m
          · rw [if_pos h, if_pos (show j + 1 < m + 1 by omega)]
          · rw [if_neg h]
            by_cases h2 : j = m
            · rw [if_pos h2, if_neg (show ¬(j + 1 < m + 1) by omega),
                if_pos (show j + 1 = m + 1 by omega)]
            · rw [if_neg h2, if_neg (show ¬(j + 1 < m + 1) by omega),
                if_neg (show ¬(j + 1 = m + 1) by omega)]

/-- Indexed access into a level-payment cash-flow vector. -/
theorem level_flows_getD (P A ifee pfee b : ℚ) (n k : ℕ) (hn : 2 ≤ n)
    (h1 : 1 ≤ k) (hk : k ≤ n) :
    ((-P) :: (A + ifee + pfee) ::
        (List.replicate (n - 2) (A + pfee) ++ [A + pfee + b])).getD k 0
      = A + (pfee + if k = 1 then ifee else 0) + (if k = n then b else 0) := by
  cases k with
  | zero => omega
  | succ k =>
      rw [List.getD_cons_succ]
      cases k with
      | zero =>
          rw [List.getD_cons_zero, if_pos rfl, if_neg (by omega)]
          ring
      | succ k =>
          rw [List.getD_cons_succ, getD_replicate_append]
          by_cases hc : k < n - 2
          · rw [if_pos hc, if_neg (show ¬(k + 1 + 1 = 1) by omega),
              if_neg (show ¬(k + 1 + 1 = n) by omega)]
            ring
          · have hc2 : k = n - 2 := by omega
            rw [if_neg hc, if_pos hc2, if_neg (show ¬(k + 1 + 1 = 1) by omega),
              if_pos (show k + 1 + 1 = n by omega)]
            ring

/-- For a level-payment policy whose cash-flow vector has the source's
shape, the vector has length `n + 1`, starts at `-principal`, and its
`k`-th entry equals the `k`-th schedule row's `total_amount`. -/
theorem cash_flows_level_matches (req : LoanRequest) (A : ℚ)
    (hA : ∀ rem : ℚ, (periodSplit req rem).1 + (periodSplit req rem).2 = A)
    (hshape : cash_flows req
      = (-req.principal) :: (A + req.initial_fee + req.payment_fee) ::
          (List.replicate (req.num_payments - 2) (A + req.payment_fee)
            ++ [A + req.payment_fee + req.balloon_amount]))
    (hn : 2 ≤ req.num_payments) :
    (cash_flows req).length = req.num_payments + 1
    ∧ (cash_flows req).getD 0 0 = -req.principal
    ∧ ∀ k : ℕ, 1 ≤ k → k ≤ req.num_payments →
        (cash_flows req).getD k 0
          = ((loan_schedule req).getD (k - 1) default).total_amount := by
  rw [hshape]
  refine ⟨?_, ?_, ?_⟩
  · simp only [List.length_cons, List.length_append, List.length_replicate,
      List.length_nil]
    omega
  · rfl
  · intro k h1 h2
    rw [level_flows_getD req.principal A req.initial_fee req.payment_fee
      req.balloon_amount req.num_payments k hn h1 h2]
    simp only [loan_schedule]
    rw [runEngine_getD_total req A hA req.num_payments le_rfl req.principal
      (k - 1) (by omega)]
    have e : req.num_payments - req.num_payments + 1 + (k - 1) = k := by omega
    rw [e]

/-- At zero periodic rate the solver's fixed_amortization loop records the
constant entry `principal_payment + payment_fee` every iteration: the
interest computed from its (under-reduced) remaining balance is zero. -/
theorem famortFlowsLoop_zero_rate (pp pfee : ℚ) :
    ∀ (m : ℕ) (rem : ℚ),
      (famortFlowsLoop pp 0 pfee m rem).1 = List.replicate m (pp + pfee) := by
  intro m
  induction m with
  | zero => intro rem; rfl
  | succ m ih =>
      intro rem
      simp [famortFlowsLoop, ih, List.replicate_succ]

/-- C2 amended: for annuity with positive rate, for fixed_payment with any
rate, and for fixed_amortization at zero rate (where the solver's
under-reduced balance contributes no interest), with `num_payments ≥ 2` the
solver's cash-flow vector has length `num_payments + 1`, entry 0 is
`-principal`, and entry `k` equals the `total_amount` of the `k`-th
schedule row.  (For `num_payments = 1` the vector has length 3, and for
fixed_amortization with positive rate the final entry disagrees with the
schedule — see the counterexample.) -/
theorem C2_amended_flows_match (req : LoanRequest)
    (hn : 2 ≤ req.num_payments)
    (hpol : (req.loan_type = LoanType.annuity ∧ 0 < req.rate)
            ∨ req.loan_type = LoanType.fixed_payment
            ∨ (req.loan_type = LoanType.fixed_amortization ∧ req.rate = 0)) :
    (cash_flows req).length = req.num_payments + 1
    ∧ (cash_flows req).getD 0 0 = -req.principal
    ∧ ∀ k : ℕ, 1 ≤ k → k ≤ req.num_payments →
        (cash_flows req).getD k 0
          = ((loan_schedule req).getD (k - 1) default).total_amount := by
  rcases hpol with ⟨hlt, _hra⟩ | hlt | ⟨hlt, hr0⟩
  · refine cash_flows_level_matches req
      (calculate_annuity_payment req.principal req.rate req.num_payments) ?_ ?_ hn
    · intro rem
      simp [periodSplit, hlt]
    · simp only [cash_flows, hlt]
  · refine cash_flows_level_matches req
      (calculate_fixed_payment req.principal req.rate req.num_payments) ?_ ?_ hn
    · intro rem
      simp [periodSplit, hlt]
    · simp only [cash_flows, hlt]
  · refine cash_flows_level_matches req
      (req.principal / (req.num_payments : ℚ)) ?_ ?_ hn
    · intro rem
      simp [periodSplit, hlt, hr0, monthlyRate]
    · simp only [cash_flows, hlt]
      simp [hr0, monthlyRate, famortFlowsLoop_zero_rate,
        calculate_fixed_amortization_principal_payment]

/-- A two-period annuity request with fees and a balloon. -/
def reqAnnTwo : LoanRequest :=
  { principal := 100, rate := 12, num_payments := 2, loan_type := LoanType.annuity,
    initial_fee := 10, payment_fee := 1, balloon_amount := 5, payment_number := none }

/-- Witness for `C2_amended_flows_match` at a concrete request, entry 2. -/
theorem C2_amended_witness :
    (cash_flows reqAnnTwo).length = reqAnnTwo.num_payments + 1
    ∧ (cash_flows reqAnnTwo).getD 0 0 = -reqAnnTwo.principal
    ∧ (cash_flows reqAnnTwo).getD 2 0
        = ((loan_schedule reqAnnTwo).getD 1 default).total_amount :=
  ⟨(C2_amended_flows_match reqAnnTwo (by norm_num [reqAnnTwo])
      (Or.inl ⟨rfl, by norm_num [reqAnnTwo]⟩)).1,
   (C2_amended_flows_match reqAnnTwo (by norm_num [reqAnnTwo])
      (Or.inl ⟨rfl, by norm_num [reqAnnTwo]⟩)).2.1,
   (C2_amended_flows_match reqAnnTwo (by norm_num [reqAnnTwo])
      (Or.inl ⟨rfl, by norm_num [reqAnnTwo]⟩)).2.2 2 (by norm_num)
     (by norm_num [reqAnnTwo])⟩

/-- C7 amended: for fixed_amortization every row's principal component is
`principal / num_payments`, except that the final row additionally carries
the balloon add-back. -/
theorem C7_amended_principal (req : LoanRequest)
    (hlt : req.loan_type = LoanType.fixed_amortization)
    (idx : ℕ) (hidx : idx < req.num_payments) :
    ((loan_schedule req).getD idx default).principal
      = req.principal / (req.num_payments : ℚ)
        + (if idx + 1 = req.num_payments then req.balloon_amount else 0) := by
  simp only [loan_schedule]
  rw [runEngine_getD_principal req (req.principal / (req.num_payments : ℚ))
    (fun rem => by simp [periodSplit, hlt]) req.num_payments le_rfl req.principal
    idx hidx]
  have e : req.num_payments - req.num_payments + 1 + idx = idx + 1 := by omega
  rw [e]

/-- Witness for `C7_amended_principal` at a concrete request, final row. -/
theorem C7_amended_witness :
    ((loan_schedule reqFamortTwo).getD 1 default).principal
      = reqFamortTwo.principal / (reqFamortTwo.num_payments : ℚ)
        + (if 1 + 1 = reqFamortTwo.num_payments then reqFamortTwo.balloon_amount else 0) :=
  C7_amended_principal reqFamortTwo rfl 1 (by norm_num [reqFamortTwo])
